import Mathlib

/-!
Shallow embedding of `gcloud/datastore/_implicit_environ.py`: implicit
dataset-ID resolution from environment variables, the App Engine identity
service and the Compute Engine metadata server, together with the lazily
memoizing defaults container.
-/

/-- Behaviour of the metadata HTTP endpoint as seen by one request:
either the socket layer fails (connection error / timeout, i.e.
`socket.error` in Python), or the server answers with a status and body. -/
inductive MetadataBehavior where
  | socketFailure : MetadataBehavior
  | response (status : Nat) (body : String) : MetadataBehavior
deriving DecidableEq

/-- The ambient environment read by the module: the two environment
variables (`None` models an unset variable), the App Engine
`app_identity` service (`none` models `app_identity is None`, i.e. the
module could not be imported; `some a` models
`app_identity.get_application_id() == a`), and the metadata endpoint. -/
structure Environ where
  gcloud_dataset_id : Option String
  datastore_dataset : Option String
  app_identity : Option String
  metadata : MetadataBehavior
deriving DecidableEq

/-- Instrumentation state threaded through probe calls: whether the HTTP
connection object currently holds its resource, how many HTTP requests
were issued, and how many times each probe function was entered. -/
structure ProbeState where
  connOpen : Bool
  requests : Nat
  appEngineCalls : Nat
  metadataCalls : Nat
deriving DecidableEq

/-- Python exceptions relevant to this module: `socket.error` (which
includes `socket.timeout`), and `EnvironmentError` with its message. -/
inductive PyExc where
  | socket_error : PyExc
  | environment_error (msg : String) : PyExc
deriving DecidableEq

/-- A Python computation: state passing plus exceptions. -/
def PyM (α : Type) : Type := ProbeState → Except PyExc α × ProbeState

/-- Return a value, leave the state alone. -/
def pyPure {α : Type} (a : α) : PyM α := fun st => (Except.ok a, st)

/-- Raise an exception. -/
def pyThrow {α : Type} (e : PyExc) : PyM α := fun st => (Except.error e, st)

/-- Sequencing: an exception aborts the rest of the suite. -/
def pyBind {α β : Type} (m : PyM α) (f : α → PyM β) : PyM β := fun st =>
  match m st with
  | (Except.ok a, st₁) => f a st₁
  | (Except.error e, st₁) => (Except.error e, st₁)

/-- `try: body except E: handler` — the handler sees the raised exception. -/
def pyTryCatch {α : Type} (body : PyM α) (handler : PyExc → PyM α) : PyM α := fun st =>
  match body st with
  | (Except.ok a, st₁) => (Except.ok a, st₁)
  | (Except.error e, st₁) => handler e st₁

/-- `try: body finally: fin` — `fin` runs on both exit paths and an
exception from the body is re-raised after it. -/
def pyTryFinally {α : Type} (body : PyM α) (fin : PyM Unit) : PyM α := fun st =>
  match body st with
  | (Except.ok a, st₁) =>
    match fin st₁ with
    | (Except.ok _, st₂) => (Except.ok a, st₂)
    | (Except.error e, st₂) => (Except.error e, st₂)
  | (Except.error e, st₁) =>
    match fin st₁ with
    | (Except.ok _, st₂) => (Except.error e, st₂)
    | (Except.error e₂, st₂) => (Except.error e₂, st₂)

/-- `_DATASET_ENV_VAR_NAME = 'GCLOUD_DATASET_ID'` -/
def _DATASET_ENV_VAR_NAME : String := "GCLOUD_DATASET_ID"

/-- `_GCD_DATASET_ENV_VAR_NAME = 'DATASTORE_DATASET'` -/
def _GCD_DATASET_ENV_VAR_NAME : String := "DATASTORE_DATASET"

/-- `os.getenv(name)` restricted to the two variables the module reads. -/
def os_getenv (env : Environ) (name : String) : Option String :=
  if name = _DATASET_ENV_VAR_NAME then env.gcloud_dataset_id
  else if name = _GCD_DATASET_ENV_VAR_NAME then env.datastore_dataset
  else none

/-- `HTTPConnection(host, timeout=0.1)`: acquire the connection resource. -/
def http_connection_new : PyM Unit := fun st =>
  (Except.ok (), { st with connOpen := true })

/-- `connection.request('GET', uri_path, headers=headers)`: one HTTP
request; raises `socket.error` when the endpoint is unreachable. -/
def connection_request (env : Environ) : PyM Unit := fun st =>
  let st := { st with requests := st.requests + 1 }
  match env.metadata with
  | MetadataBehavior.socketFailure => (Except.error PyExc.socket_error, st)
  | MetadataBehavior.response _ _ => (Except.ok (), st)

/-- `connection.getresponse()`: the status and body of the response. -/
def connection_getresponse (env : Environ) : PyM (Nat × String) := fun st =>
  match env.metadata with
  | MetadataBehavior.socketFailure => (Except.error PyExc.socket_error, st)
  | MetadataBehavior.response s b => (Except.ok (s, b), st)

/-- `connection.close()`: release the connection resource. -/
def connection_close : PyM Unit := fun st =>
  (Except.ok (), { st with connOpen := false })

/-- `app_engine_id()`: `None` if the `app_identity` module is absent,
else `app_identity.get_application_id()`. Entering the function bumps
the probe-call counter. -/
def app_engine_id (env : Environ) : PyM (Option String) := fun st =>
  let st := { st with appEngineCalls := st.appEngineCalls + 1 }
  match env.app_identity with
  | none => (Except.ok none, st)
  | some appid => (Except.ok (some appid), st)

/-- `compute_engine_id()`: one GET to the metadata server inside
`try: ... except socket.error: pass finally: connection.close()`;
returns the body on status 200 and `None` otherwise. Entering the
function bumps the probe-call counter. -/
def compute_engine_id (env : Environ) : PyM (Option String) := fun st =>
  let st := { st with metadataCalls := st.metadataCalls + 1 }
  (pyBind http_connection_new fun _ =>
    pyTryFinally
      (pyTryCatch
        (pyBind (connection_request env) fun _ =>
          pyBind (connection_getresponse env) fun resp =>
            if resp.1 = 200 then pyPure (some resp.2) else pyPure none)
        (fun e =>
          match e with
          | PyExc.socket_error => pyPure none
          | other => pyThrow other))
      connection_close) st

/-- `_determine_default_dataset_id(dataset_id=None)`: the four-way
fall-back chain, each step taken only while the value is still `None`. -/
def _determine_default_dataset_id (env : Environ) (dataset_id : Option String) :
    PyM (Option String) :=
  let dataset_id :=
    match dataset_id with
    | none => os_getenv env _DATASET_ENV_VAR_NAME
    | some v => some v
  let dataset_id :=
    match dataset_id with
    | none => os_getenv env _GCD_DATASET_ENV_VAR_NAME
    | some v => some v
  pyBind
    (match dataset_id with
     | none => app_engine_id env
     | some v => pyPure (some v)) fun dataset_id =>
  match dataset_id with
  | none => compute_engine_id env
  | some v => pyPure (some v)

/-- `_DefaultsContainer`: `connection` is a plain attribute holding an
opaque handle; `dataset_id` models the instance attribute slot shadowing
the `_LazyProperty` class descriptor — `none` means the slot was never
assigned (the descriptor is still active), `some v` means the instance
attribute holds `v`. -/
structure DefaultsContainer (Conn : Type) where
  connection : Option Conn
  dataset_id : Option (Option String)
deriving DecidableEq

/-- `_DefaultsContainer.__init__(connection=None, dataset_id=None,
implicit=False)`: the `dataset_id` slot is assigned unless
`dataset_id is None and implicit`. -/
def DefaultsContainer.init {Conn : Type} (connection : Option Conn)
    (dataset_id : Option String) (implicit : Bool) : DefaultsContainer Conn :=
  { connection := connection
    dataset_id := if dataset_id ≠ none ∨ implicit = false then some dataset_id else none }

/-- `set_default_dataset_id(dataset_id=None)` acting on a given container:
resolve, store on success, raise `EnvironmentError` on absence. -/
def set_default_dataset_id {Conn : Type} (env : Environ) (dataset_id : Option String)
    (defaults : DefaultsContainer Conn) (st : ProbeState) :
    Except PyExc Unit × DefaultsContainer Conn × ProbeState :=
  match _determine_default_dataset_id env dataset_id st with
  | (Except.ok (some v), st₁) =>
    (Except.ok (), { defaults with dataset_id := some (some v) }, st₁)
  | (Except.ok none, st₁) =>
    (Except.error (PyExc.environment_error "No dataset ID could be inferred."),
      defaults, st₁)
  | (Except.error e, st₁) => (Except.error e, defaults, st₁)

/-- `get_default_dataset_id()` acting on a given container: return the
instance attribute when assigned; otherwise `_LazyProperty.__get__` runs
the deferred callable `_determine_default_dataset_id()`, stores its
result in the instance attribute (`setattr`), and returns it. -/
def get_default_dataset_id {Conn : Type} (env : Environ)
    (defaults : DefaultsContainer Conn) (st : ProbeState) :
    Except PyExc (Option String) × DefaultsContainer Conn × ProbeState :=
  match defaults.dataset_id with
  | some v => (Except.ok v, defaults, st)
  | none =>
    match _determine_default_dataset_id env none st with
    | (Except.ok v, st₁) => (Except.ok v, { defaults with dataset_id := some v }, st₁)
    | (Except.error e, st₁) => (Except.error e, defaults, st₁)

/-- `get_default_connection()`: plain attribute read, never computed. -/
def get_default_connection {Conn : Type} (defaults : DefaultsContainer Conn) :
    Option Conn := defaults.connection

/-- The value the App Engine probe yields. -/
def app_engine_value (env : Environ) : Option String :=
  match env.app_identity with
  | none => none
  | some appid => some appid

/-- The value the metadata probe yields: the body exactly on status 200. -/
def compute_engine_value (env : Environ) : Option String :=
  match env.metadata with
  | MetadataBehavior.socketFailure => none
  | MetadataBehavior.response s b => if s = 200 then some b else none

/-- First present value in the fixed precedence order: explicit override,
`GCLOUD_DATASET_ID`, `DATASTORE_DATASET`, App Engine probe, metadata
probe. -/
def resolveValue (env : Environ) (d : Option String) : Option String :=
  match d with
  | some v => some v
  | none =>
    match env.gcloud_dataset_id with
    | some v => some v
    | none =>
      match env.datastore_dataset with
      | some v => some v
      | none =>
        match app_engine_value env with
        | some v => some v
        | none => compute_engine_value env

/-- The probe-state effect of one resolution run: nothing when an early
source short-circuits, one App Engine call when that probe answers, and
both probes (one HTTP request, connection closed) otherwise. -/
def determineFinalState (env : Environ) (d : Option String) (st : ProbeState) : ProbeState :=
  match d with
  | some _ => st
  | none =>
    match env.gcloud_dataset_id with
    | some _ => st
    | none =>
      match env.datastore_dataset with
      | some _ => st
      | none =>
        match env.app_identity with
        | some _ => { st with appEngineCalls := st.appEngineCalls + 1 }
        | none =>
          { st with appEngineCalls := st.appEngineCalls + 1
                    metadataCalls := st.metadataCalls + 1
                    requests := st.requests + 1
                    connOpen := false }

lemma app_engine_id_run (env : Environ) (st : ProbeState) :
    app_engine_id env st =
      (Except.ok (app_engine_value env),
        { st with appEngineCalls := st.appEngineCalls + 1 }) := by
  cases h : env.app_identity <;>
    simp [app_engine_id, app_engine_value, h]

lemma compute_engine_id_run (env : Environ) (st : ProbeState) :
    compute_engine_id env st =
      (Except.ok (compute_engine_value env),
        { st with metadataCalls := st.metadataCalls + 1
                  requests := st.requests + 1
                  connOpen := false }) := by
  cases h : env.metadata with
  | socketFailure =>
    simp [compute_engine_id, compute_engine_value, h, pyBind, pyTryFinally,
      pyTryCatch, pyPure, pyThrow, http_connection_new, connection_request,
      connection_getresponse, connection_close]
  | response s b =>
    by_cases hs : s = 200 <;>
      simp [compute_engine_id, compute_engine_value, h, hs, pyBind, pyTryFinally,
        pyTryCatch, pyPure, pyThrow, http_connection_new, connection_request,
        connection_getresponse, connection_close]

lemma determine_run (env : Environ) (d : Option String) (st : ProbeState) :
    _determine_default_dataset_id env d st =
      (Except.ok (resolveValue env d), determineFinalState env d st) := by
  cases d with
  | some v =>
    simp [_determine_default_dataset_id, resolveValue, determineFinalState,
      pyBind, pyPure]
  | none =>
    cases h₁ : env.gcloud_dataset_id with
    | some v =>
      simp [_determine_default_dataset_id, resolveValue, determineFinalState,
        os_getenv, _DATASET_ENV_VAR_NAME, _GCD_DATASET_ENV_VAR_NAME, h₁,
        pyBind, pyPure]
    | none =>
      cases h₂ : env.datastore_dataset with
      | some v =>
        simp [_determine_default_dataset_id, resolveValue, determineFinalState,
          os_getenv, _DATASET_ENV_VAR_NAME, _GCD_DATASET_ENV_VAR_NAME, h₁, h₂,
          pyBind, pyPure]
      | none =>
        cases h₃ : env.app_identity with
        | some appid =>
          simp [_determine_default_dataset_id, resolveValue, determineFinalState,
            os_getenv, _DATASET_ENV_VAR_NAME, _GCD_DATASET_ENV_VAR_NAME, h₁, h₂,
            pyBind, pyPure, app_engine_id_run, app_engine_value, h₃]
        | none =>
          simp [_determine_default_dataset_id, resolveValue, determineFinalState,
            os_getenv, _DATASET_ENV_VAR_NAME, _GCD_DATASET_ENV_VAR_NAME, h₁, h₂,
            pyBind, pyPure, app_engine_id_run, app_engine_value, h₃,
            compute_engine_id_run]

lemma resolveValue_eq_none_iff (env : Environ) (d : Option String) :
    resolveValue env d = none ↔
      d = none ∧ env.gcloud_dataset_id = none ∧ env.datastore_dataset = none ∧
        app_engine_value env = none ∧ compute_engine_value env = none := by
  cases d <;>
    cases h₁ : env.gcloud_dataset_id <;>
      cases h₂ : env.datastore_dataset <;>
        cases h₃ : app_engine_value env <;>
          simp [resolveValue, h₁, h₂, h₃]

lemma compute_engine_value_eq_some_iff (env : Environ) (b : String) :
    compute_engine_value env = some b ↔
      env.metadata = MetadataBehavior.response 200 b := by
  cases h : env.metadata with
  | socketFailure => simp [compute_engine_value, h]
  | response s bb =>
    simp only [compute_engine_value, h, MetadataBehavior.response.injEq]
    by_cases hs : s = 200 <;> simp [hs]

lemma determineFinalState_calls_le (env : Environ) (d : Option String) (st : ProbeState) :
    (determineFinalState env d st).appEngineCalls ≤ st.appEngineCalls + 1 ∧
      (determineFinalState env d st).metadataCalls ≤ st.metadataCalls + 1 := by
  obtain ⟨g, ds, ai, md⟩ := env
  cases d <;> cases g <;> cases ds <;> cases ai <;>
    simp [determineFinalState]

lemma get_resolved {Conn : Type} (env : Environ) (c : DefaultsContainer Conn)
    (st : ProbeState) (v : Option String) (h : c.dataset_id = some v) :
    get_default_dataset_id env c st = (Except.ok v, c, st) := by
  simp [get_default_dataset_id, h]

lemma get_unresolved {Conn : Type} (env : Environ) (c : DefaultsContainer Conn)
    (st : ProbeState) (h : c.dataset_id = none) :
    get_default_dataset_id env c st =
      (Except.ok (resolveValue env none),
        { c with dataset_id := some (resolveValue env none) },
        determineFinalState env none st) := by
  simp [get_default_dataset_id, h, determine_run]

lemma get_then_get {Conn : Type} (env env₂ : Environ) (c : DefaultsContainer Conn)
    (st st₂ : ProbeState) :
    get_default_dataset_id env₂ (get_default_dataset_id env c st).2.1 st₂ =
      ((get_default_dataset_id env c st).1,
        (get_default_dataset_id env c st).2.1, st₂) := by
  cases h : c.dataset_id with
  | some v => rw [get_resolved env c st v h, get_resolved env₂ c st₂ v h]
  | none =>
    rw [get_unresolved env c st h]
    exact get_resolved env₂ _ st₂ _ rfl

lemma set_run {Conn : Type} (env : Environ) (d : Option String)
    (c : DefaultsContainer Conn) (st : ProbeState) :
    set_default_dataset_id env d c st =
      (match resolveValue env d with
       | some v => (Except.ok (), { c with dataset_id := some (some v) },
           determineFinalState env d st)
       | none =>
         (Except.error (PyExc.environment_error "No dataset ID could be inferred."),
           c, determineFinalState env d st)) := by
  cases h : resolveValue env d <;>
    simp [set_default_dataset_id, determine_run, h]

/-- An environment in which all four implicit sources are absent. -/
def envAllAbsent : Environ :=
  { gcloud_dataset_id := none, datastore_dataset := none,
    app_identity := none, metadata := MetadataBehavior.socketFailure }

/-- An environment in which both environment variables are set. -/
def envVarsSet : Environ :=
  { gcloud_dataset_id := some "from-env", datastore_dataset := some "from-gcd",
    app_identity := none, metadata := MetadataBehavior.socketFailure }

/-- An environment whose `GCLOUD_DATASET_ID` is the empty string. -/
def envEmptyPrimary : Environ :=
  { gcloud_dataset_id := some "", datastore_dataset := some "x",
    app_identity := none, metadata := MetadataBehavior.socketFailure }

/-- An environment whose only set variable is `DATASTORE_DATASET`, empty. -/
def envEmptySecondary : Environ :=
  { gcloud_dataset_id := none, datastore_dataset := some "",
    app_identity := none, metadata := MetadataBehavior.socketFailure }

/-- A fresh probe state: no connection held, no calls made. -/
def st0 : ProbeState :=
  { connOpen := false, requests := 0, appEngineCalls := 0, metadataCalls := 0 }

/-- A fresh implicit-mode container over the trivial connection type. -/
def c0 : DefaultsContainer Unit := { connection := none, dataset_id := none }

/-- C2: `_determine_default_dataset_id` returns the first present value in
the fixed order — explicit override, `GCLOUD_DATASET_ID`,
`DATASTORE_DATASET`, App Engine probe, metadata probe; an explicit
identifier always yields itself, and absence comes back only when all
five sources are absent. -/
theorem determine_precedence (env : Environ) (d : Option String) (w : String)
    (st : ProbeState) :
    (_determine_default_dataset_id env d st).1 = Except.ok (resolveValue env d) ∧
    (_determine_default_dataset_id env (some w) st).1 = Except.ok (some w) ∧
    ((_determine_default_dataset_id env d st).1 = Except.ok none ↔
      d = none ∧ env.gcloud_dataset_id = none ∧ env.datastore_dataset = none ∧
        app_engine_value env = none ∧ compute_engine_value env = none) := by
  refine ⟨by simp [determine_run], by simp [determine_run, resolveValue], ?_⟩
  simp [determine_run, resolveValue_eq_none_iff]

/-- C5: the metadata probe returns the response body exactly when the
endpoint answers with status 200; on a socket failure (connection error
or timeout) or a non-200 status it returns absence without raising, and
it issues exactly one HTTP request (no retry). -/
theorem compute_engine_id_contract (env : Environ) (st : ProbeState) (b : String) :
    (compute_engine_id env st).1 = Except.ok (compute_engine_value env) ∧
    ((compute_engine_id env st).1 = Except.ok (some b) ↔
      env.metadata = MetadataBehavior.response 200 b) ∧
    (compute_engine_id env st).2.requests = st.requests + 1 := by
  refine ⟨by simp [compute_engine_id_run], ?_, by simp [compute_engine_id_run]⟩
  simp [compute_engine_id_run, compute_engine_value_eq_some_iff]

/-- C6: on every exit path of the metadata probe — 200 response, non-200
response, or an exception during the request — the HTTP connection is
released before the probe returns. -/
theorem compute_engine_id_closes_connection (env : Environ) (st : ProbeState) :
    (compute_engine_id env st).2.connOpen = false := by
  simp [compute_engine_id_run]

/-- C7: a container constructed in explicit mode (`implicit = false`) with
an absent identifier answers absence on every getter call and never runs
a probe: the container and probe state are returned untouched. -/
theorem explicit_mode_absent_never_probes {Conn : Type} (conn : Option Conn)
    (env : Environ) (st : ProbeState) :
    get_default_dataset_id env (DefaultsContainer.init conn none false) st =
      (Except.ok none, DefaultsContainer.init conn none false, st) := by
  simp [DefaultsContainer.init, get_default_dataset_id]

/-- C10: the setter never touches the connection attribute: the default
connection is identical before and after any call, successful or
failing. -/
theorem set_default_preserves_connection {Conn : Type} (env : Environ)
    (d : Option String) (c : DefaultsContainer Conn) (st : ProbeState) :
    get_default_connection (set_default_dataset_id env d c st).2.1 =
      get_default_connection c := by
  rcases h : resolveValue env d with _ | v <;>
    simp [get_default_connection, set_run, h]

/-- C3: once the identifier is resolved — by the lazy first read or by a
successful explicit set — every later getter call returns the identical
cached value with the probe state untouched, whatever the new
environment; the first resolution enters each probe at most once. -/
theorem lazy_memoization {Conn : Type} (c : DefaultsContainer Conn)
    (env env₂ : Environ) (d : Option String) (st st₂ : ProbeState) :
    (get_default_dataset_id env₂ (get_default_dataset_id env c st).2.1 st₂ =
      ((get_default_dataset_id env c st).1,
        (get_default_dataset_id env c st).2.1, st₂)) ∧
    ((set_default_dataset_id env d c st).1 = Except.ok () →
      ∃ v, (set_default_dataset_id env d c st).2.1.dataset_id = some (some v) ∧
        get_default_dataset_id env₂ (set_default_dataset_id env d c st).2.1 st₂ =
          (Except.ok (some v), (set_default_dataset_id env d c st).2.1, st₂)) ∧
    ((get_default_dataset_id env c st).2.2.appEngineCalls ≤ st.appEngineCalls + 1 ∧
      (get_default_dataset_id env c st).2.2.metadataCalls ≤ st.metadataCalls + 1) := by
  refine ⟨get_then_get env env₂ c st st₂, ?_, ?_⟩
  · intro hok
    rcases h : resolveValue env d with _ | v
    · rw [set_run] at hok
      simp [h] at hok
    · refine ⟨v, ?_, ?_⟩
      · rw [set_run]
        simp [h]
      · rw [set_run]
        simp only [h]
        exact get_resolved env₂ _ st₂ _ rfl
  · cases hc : c.dataset_id with
    | some v =>
      rw [get_resolved env c st v hc]
      exact ⟨Nat.le_succ _, Nat.le_succ _⟩
    | none =>
      rw [get_unresolved env c st hc]
      exact determineFinalState_calls_le env none st

/-- Witness for C3: a successful explicit set from the environment
variable is cached and replayed by a later getter call in a different
environment. -/
theorem lazy_memoization_witness :
    ∃ v, (set_default_dataset_id envVarsSet none c0 st0).2.1.dataset_id =
        some (some v) ∧
      get_default_dataset_id envAllAbsent
          (set_default_dataset_id envVarsSet none c0 st0).2.1 st0 =
        (Except.ok (some v),
          (set_default_dataset_id envVarsSet none c0 st0).2.1, st0) :=
  (lazy_memoization c0 envVarsSet envAllAbsent none st0 st0).2.1 rfl

/-- C4: a negative first resolution (absence) is cached exactly like a
positive one: later getter calls return absence without probing, even if
the environment variables are set in the meantime. -/
theorem negative_result_cached {Conn : Type} (c : DefaultsContainer Conn)
    (env env₂ : Environ) (st st₂ : ProbeState)
    (h : (get_default_dataset_id env c st).1 = Except.ok none) :
    get_default_dataset_id env₂ (get_default_dataset_id env c st).2.1 st₂ =
      (Except.ok none, (get_default_dataset_id env c st).2.1, st₂) := by
  have h₂ := get_then_get env env₂ c st st₂
  rw [h] at h₂
  exact h₂

/-- Witness for C4: the first lookup in an empty environment caches
absence and a later lookup with both variables set still returns it. -/
theorem negative_result_cached_witness :
    get_default_dataset_id envVarsSet
        (get_default_dataset_id envAllAbsent c0 st0).2.1 st0 =
      (Except.ok none, (get_default_dataset_id envAllAbsent c0 st0).2.1, st0) :=
  negative_result_cached c0 envAllAbsent envVarsSet st0 st0 rfl

/-- C8: the setter is atomic on failure: whenever it raises, the container
is exactly as before the call (an unresolved slot included); when
resolution yields a value it succeeds and stores exactly that value. -/
theorem set_default_atomic {Conn : Type} (env : Environ) (d : Option String)
    (c : DefaultsContainer Conn) (st : ProbeState) :
    (∀ e, (set_default_dataset_id env d c st).1 = Except.error e →
      (set_default_dataset_id env d c st).2.1 = c) ∧
    (∀ v, (_determine_default_dataset_id env d st).1 = Except.ok (some v) →
      (set_default_dataset_id env d c st).1 = Except.ok () ∧
      (set_default_dataset_id env d c st).2.1 =
        { c with dataset_id := some (some v) }) := by
  constructor
  · intro e he
    rcases h : resolveValue env d with _ | v
    · rw [set_run]
      simp [h]
    · rw [set_run] at he
      simp [h] at he
  · intro v hv
    simp only [determine_run] at hv
    simp only [Except.ok.injEq] at hv
    rw [set_run]
    simp [hv]

/-- Witness for C8: a failing set in the empty environment leaves the
fresh container untouched; a succeeding set stores the variable value. -/
theorem set_default_atomic_witness :
    (set_default_dataset_id envAllAbsent none c0 st0).2.1 = c0 ∧
    ((set_default_dataset_id envVarsSet none c0 st0).1 = Except.ok () ∧
      (set_default_dataset_id envVarsSet none c0 st0).2.1 =
        { c0 with dataset_id := some (some "from-env") }) :=
  ⟨(set_default_atomic envAllAbsent none c0 st0).1
      (PyExc.environment_error "No dataset ID could be inferred.") rfl,
    (set_default_atomic envVarsSet none c0 st0).2 "from-env" rfl⟩

/-- C9: presence is tested only against `None`, never against emptiness:
an empty-string identifier — explicit or from either environment
variable — is present, short-circuits the remaining sources (the probe
state is untouched), is returned by resolution, and is stored by the
setter without raising. -/
theorem empty_string_is_present {Conn : Type} (env : Environ)
    (c : DefaultsContainer Conn) (st : ProbeState) :
    (_determine_default_dataset_id env (some "") st = (Except.ok (some ""), st)) ∧
    (env.gcloud_dataset_id = some "" →
      _determine_default_dataset_id env none st = (Except.ok (some ""), st)) ∧
    (env.gcloud_dataset_id = none → env.datastore_dataset = some "" →
      _determine_default_dataset_id env none st = (Except.ok (some ""), st)) ∧
    ((set_default_dataset_id env (some "") c st).1 = Except.ok () ∧
      (set_default_dataset_id env (some "") c st).2.1.dataset_id =
        some (some "")) := by
  refine ⟨?_, ?_, ?_, ?_, ?_⟩
  · rw [determine_run]
    rfl
  · intro h₁
    rw [determine_run]
    simp [resolveValue, determineFinalState, h₁]
  · intro h₁ h₂
    rw [determine_run]
    simp [resolveValue, determineFinalState, h₁, h₂]
  · rw [set_run]
    rfl
  · rw [set_run]
    rfl

/-- Witness for C9: both empty-string environment variables resolve. -/
theorem empty_string_is_present_witness :
    (_determine_default_dataset_id envEmptyPrimary none st0 =
      (Except.ok (some ""), st0)) ∧
    (_determine_default_dataset_id envEmptySecondary none st0 =
      (Except.ok (some ""), st0)) :=
  ⟨(empty_string_is_present envEmptyPrimary c0 st0).2.1 rfl,
    (empty_string_is_present envEmptySecondary c0 st0).2.2.1 rfl rfl⟩

/-- C1 counterexample: with all four implicit sources absent the
no-argument setter does raise, but the exact message is
"No dataset ID could be inferred.", not "No identifier could be
inferred." as claimed. -/
theorem set_default_message_mismatch :
    (set_default_dataset_id envAllAbsent none c0 st0).1 =
      Except.error (PyExc.environment_error "No dataset ID could be inferred.") ∧
    "No dataset ID could be inferred." ≠ "No identifier could be inferred." :=
  ⟨rfl, by decide⟩

/-- C1 (amended): when all four implicit sources are absent, the
no-argument setter raises an `EnvironmentError` whose exact message is
"No dataset ID could be inferred.", leaving the container unchanged. -/
theorem set_default_all_absent_raises {Conn : Type} (env : Environ)
    (c : DefaultsContainer Conn) (st : ProbeState)
    (h₁ : env.gcloud_dataset_id = none) (h₂ : env.datastore_dataset = none)
    (h₃ : env.app_identity = none) (h₄ : compute_engine_value env = none) :
    (set_default_dataset_id env none c st).1 =
      Except.error (PyExc.environment_error "No dataset ID could be inferred.") ∧
    (set_default_dataset_id env none c st).2.1 = c := by
  have hres : resolveValue env none = none := by
    simp [resolveValue, app_engine_value, h₁, h₂, h₃, h₄]
  rw [set_run]
  simp [hres]

/-- Witness for the amended C1 at the concrete empty environment. -/
theorem set_default_all_absent_raises_witness :
    (set_default_dataset_id envAllAbsent none c0 st0).1 =
      Except.error (PyExc.environment_error "No dataset ID could be inferred.") ∧
    (set_default_dataset_id envAllAbsent none c0 st0).2.1 = c0 :=
  set_default_all_absent_raises envAllAbsent c0 st0 rfl rfl rfl rfl
